import Mathlib

/-!
Verification of the message-relay protocol of the swap-sdk repository:
chunking, reassembly, origin validation, JSON-RPC dispatch and the
cycle-safe serializer.  Every definition is a shallow embedding of the
corresponding TypeScript source (file `src/unnamed/part_002` holds the
`SwapSDK` relay, `src/unnamed/part_003` the `SwapEmbedComponent` relay).
JavaScript strings are modelled by `String`, JavaScript array/object
trees by `JData`, and object graphs with identity (needed by the
cycle-detecting serializer) by a heap of `HObj` addressed by `Nat`.
-/

set_option maxRecDepth 4096

namespace SwapSdk

/-- Tree-shaped JavaScript value as it travels through the dispatcher:
`undefined` is JavaScript `undefined`, `num` models the numbers that occur in
the protocol (integers), `arr`/`obj` are array and plain-object literals. -/
inductive JData where
  | undefined : JData
  | null : JData
  | bool (b : Bool) : JData
  | num (n : Int) : JData
  | str (s : String) : JData
  | arr (elems : List JData) : JData
  | obj (fields : List (String × JData)) : JData

/-- Property access `d[key]` on a `JData` value: a lookup on plain objects,
`undefined` on everything else (mirrors JavaScript member access on
non-objects used by the shape guards of the source). -/
def dGet (d : JData) (key : String) : JData :=
  match d with
  | .obj fields =>
    match fields.lookup key with
    | some v => v
    | none => .undefined
  | _ => .undefined

/-- JavaScript truthiness of a `JData` value (`!x` in the parameter
checks of the source): `undefined`, `null`, `false`, `0` and `""` are falsy. -/
def jsTruthy (d : JData) : Bool :=
  match d with
  | .undefined => false
  | .null => false
  | .bool b => b
  | .num n => n != 0
  | .str s => s != ""
  | .arr _ => true
  | .obj _ => true

/-- `Array.isArray` on a `JData` value. -/
def jsIsArray (d : JData) : Bool :=
  match d with
  | .arr _ => true
  | _ => false

/-- Test for `typeof d` being the string type. -/
def jsIsString (d : JData) : Bool :=
  match d with
  | .str _ => true
  | _ => false

/-- Test for `typeof d` being the object type (true for objects, arrays and `null`). -/
def jsTypeofObject (d : JData) : Bool :=
  match d with
  | .obj _ => true
  | .arr _ => true
  | .null => true
  | _ => false

/-- Element access `d[i]` on a `JData` value: `undefined` out of range or
on non-arrays. -/
def dIdx (d : JData) (i : Nat) : JData :=
  match d with
  | .arr elems => (elems.get? i).getD .undefined
  | _ => .undefined

/-- Optional chaining `d[0]?.chainId` as used by the parameter checks:
`undefined` when the base is `null`/`undefined`, a property lookup
otherwise. -/
def dOptGet (d : JData) (key : String) : JData :=
  match d with
  | .undefined => .undefined
  | .null => .undefined
  | _ => dGet d key

/-! ### JSON.parse

Model of the JavaScript builtin `JSON.parse` used by `assembleChunks`.
A recursive-descent parser over the character list; `none` models a
thrown `SyntaxError`.  Numbers are restricted to the integer literals
that occur in the relay protocol; like the builtin, the parser rejects
trailing input. -/

/-- Skip JSON whitespace. -/
def skipWs : List Char → List Char
  | c :: cs => if c = ' ' || c = '\n' || c = '\t' || c = '\r' then skipWs cs else c :: cs
  | [] => []

/-- Parse the body of a JSON string literal after the opening quote,
handling the escapes that can occur in the relay payloads. -/
def parseStrBody : List Char → Option (List Char × List Char)
  | [] => none
  | c :: cs =>
    if c = '"' then some ([], cs)
    else if c = '\\' then
      match cs with
      | d :: ds =>
        let esc : Option Char :=
          if d = '"' then some '"'
          else if d = '\\' then some '\\'
          else if d = '/' then some '/'
          else if d = 'n' then some '\n'
          else if d = 't' then some '\t'
          else if d = 'r' then some '\r'
          else none
        match esc with
        | some e =>
          match parseStrBody ds with
          | some (body, rest) => some (e :: body, rest)
          | none => none
        | none => none
      | [] => none
    else
      match parseStrBody cs with
      | some (body, rest) => some (c :: body, rest)
      | none => none

/-- Parse a run of decimal digits. -/
def parseDigits : List Char → Option (Nat × List Char)
  | c :: cs =>
    if c.isDigit then
      match parseDigits cs with
      | some (n, rest) => some ((c.toNat - '0'.toNat) * 10 ^ (digitCount cs) + n, rest)
      | none => some (c.toNat - '0'.toNat, cs)
    else none
  | [] => none
where
  /-- Number of leading digits, used to place the current digit. -/
  digitCount : List Char → Nat
    | c :: cs => if c.isDigit then digitCount cs + 1 else 0
    | [] => 0

/-- Parse one JSON value, with fuel bounding the recursion depth. -/
def parseJ (fuel : Nat) (input : List Char) : Option (JData × List Char) :=
  match fuel with
  | 0 => none
  | fuel + 1 =>
    match skipWs input with
    | [] => none
    | c :: cs =>
      if c = 'n' then
        match cs with
        | 'u' :: 'l' :: 'l' :: rest => some (.null, rest)
        | _ => none
      else if c = 't' then
        match cs with
        | 'r' :: 'u' :: 'e' :: rest => some (.bool true, rest)
        | _ => none
      else if c = 'f' then
        match cs with
        | 'a' :: 'l' :: 's' :: 'e' :: rest => some (.bool false, rest)
        | _ => none
      else if c = '"' then
        match parseStrBody cs with
        | some (body, rest) => some (.str (String.mk body), rest)
        | none => none
      else if c = '-' then
        match parseDigits cs with
        | some (n, rest) => some (.num (-(n : Int)), rest)
        | none => none
      else if c.isDigit then
        match parseDigits (c :: cs) with
        | some (n, rest) => some (.num (n : Int), rest)
        | none => none
      else if c = '[' then
        match skipWs cs with
        | ']' :: rest => some (.arr [], rest)
        | cs1 => parseElems fuel cs1 []
      else if c = '\x7b' then
        match skipWs cs with
        | '\x7d' :: rest => some (.obj [], rest)
        | cs1 => parseMembers fuel cs1 []
      else none
where
  /-- Parse the comma-separated elements of a non-empty array. -/
  parseElems (fuel : Nat) (input : List Char) (acc : List JData) :
      Option (JData × List Char) :=
    match fuel with
    | 0 => none
    | fuel + 1 =>
      match parseJ fuel input with
      | some (v, rest) =>
        match skipWs rest with
        | ',' :: rest1 => parseElems fuel rest1 (acc ++ [v])
        | ']' :: rest1 => some (.arr (acc ++ [v]), rest1)
        | _ => none
      | none => none
  /-- Parse the comma-separated members of a non-empty object. -/
  parseMembers (fuel : Nat) (input : List Char) (acc : List (String × JData)) :
      Option (JData × List Char) :=
    match fuel with
    | 0 => none
    | fuel + 1 =>
      match skipWs input with
      | '"' :: cs =>
        match parseStrBody cs with
        | some (key, rest) =>
          match skipWs rest with
          | ':' :: rest1 =>
            match parseJ fuel rest1 with
            | some (v, rest2) =>
              match skipWs rest2 with
              | ',' :: rest3 => parseMembers fuel rest3 (acc ++ [(String.mk key, v)])
              | '\x7d' :: rest3 => some (.obj (acc ++ [(String.mk key, v)]), rest3)
              | _ => none
            | none => none
          | _ => none
        | none => none
      | _ => none

/-- Model of `JSON.parse`: parse one value and reject trailing input;
`none` models a thrown `SyntaxError`. -/
def jsonParse (s : String) : Option JData :=
  match parseJ (2 * s.data.length + 8) s.data with
  | some (v, rest) => if skipWs rest = [] then some v else none
  | none => none

/-! ### Origin Gate

Embedding of the origin check at the top of `SwapSDK.handleMessage`
(src/unnamed/part_002, lines 260-285). -/

/-- Boolean prefix test on character lists (model of a JavaScript
anchored regular-expression match against a literal). -/
def listStarts (s p : List Char) : Bool :=
  match p, s with
  | [], _ => true
  | _ :: _, [] => false
  | d :: ds, c :: cs => c == d && listStarts cs ds

/-- Does `s` start with the literal `p`? -/
def strStarts (s p : String) : Bool := listStarts s.data p.data

/-- Origin normalization from `handleMessage`: the source computes
`origin.replace` of the anchored pattern `https?://www.` by `https://`, so a leading
`http://www.` or `https://www.` is rewritten to `https://` and any other
origin is left unchanged. -/
def normalizeOrigin (origin : String) : String :=
  if strStarts origin "https://www." then String.mk ("https://".data ++ origin.data.drop 12)
  else if strStarts origin "http://www." then String.mk ("https://".data ++ origin.data.drop 11)
  else origin

/-- Development-mode allowance from `handleMessage`: the source tests
`event.origin` against
`/^(https?:\/\/localhost|https?:\/\/127\.0\.0\.1|https?:\/\/\[::1\]|file:)/`,
an anchored alternation of literal prefixes. -/
def isLocalDevOrigin (origin : String) : Bool :=
  strStarts origin "http://localhost" || strStarts origin "https://localhost" ||
  strStarts origin "http://127.0.0.1" || strStarts origin "https://127.0.0.1" ||
  strStarts origin "http://[::1]" || strStarts origin "https://[::1]" ||
  strStarts origin "file:"

/-- Origin admission decision of `handleMessage`: in production the
normalized origins must be equal; in development the local-development
prefixes are additionally allowed.  A `false` result models the early
`return` that silently drops the message. -/
def isAllowed (msgOrigin expectedOrigin : String) (isProduction : Bool) : Bool :=
  if isProduction then
    normalizeOrigin msgOrigin == normalizeOrigin expectedOrigin
  else
    isLocalDevOrigin msgOrigin || normalizeOrigin msgOrigin == normalizeOrigin expectedOrigin

/-- Modelled from the spec (section 4.4), for comparison with the code:
the specification words the normalization as "strip a leading `www.`
label from the host before comparing", which leaves the scheme
unchanged. -/
def specNormalizeOrigin (origin : String) : String :=
  if strStarts origin "https://www." then String.mk ("https://".data ++ origin.data.drop 12)
  else if strStarts origin "http://www." then String.mk ("http://".data ++ origin.data.drop 11)
  else origin

/-! ### Serializer

Embedding of `safeStringify` (src/unnamed/part_002, lines 86-133):
`JSON.stringify(data, replacer)` with a persistent `seen` set used for
cycle detection.  Object graphs are modelled by a heap (`List HObj`)
addressed by `Nat`; `JSVal.ref a` is a reference to heap slot `a`, so
aliasing and cycles are representable.  The `seen` `WeakSet` is modelled
by the list of visited addresses. -/

/-- Heap-level JavaScript value: primitives, `bigint`, or a reference to
a heap object. -/
inductive JSVal where
  | undefined : JSVal
  | null : JSVal
  | bool (b : Bool) : JSVal
  | num (n : Int) : JSVal
  | str (s : String) : JSVal
  | bigint (n : Int) : JSVal
  | ref (a : Nat) : JSVal

/-- Heap object: a plain object, an array, or an `Error` instance with
its `name`, `message` and `stack` strings. -/
inductive HObj where
  | obj (fields : List (String × JSVal)) : HObj
  | arr (elems : List JSVal) : HObj
  | errObj (name message stack : String) : HObj

/-- Number of direct slots of a heap object (used for fuel bounds). -/
def hObjSize : HObj → Nat
  | .obj fields => fields.length
  | .arr elems => elems.length
  | .errObj _ _ _ => 3

/-- JSON string escaping as performed by `JSON.stringify` on the
characters occurring in the relay payloads. -/
def escChar (c : Char) : String :=
  if c = '"' then "\\\""
  else if c = '\\' then "\\\\"
  else if c = '\n' then "\\n"
  else if c = '\t' then "\\t"
  else if c = '\r' then "\\r"
  else String.mk [c]

/-- Quoted, escaped JSON string literal for `s`. -/
def jsonQuote (s : String) : String :=
  "\"" ++ (s.data.map escChar).foldl (fun a b => a ++ b) "" ++ "\""

/-- Outcome of one call of the replacer function passed to
`JSON.stringify`: a primitive, a shallow object copy whose field values
are the original heap values, or the mapped array produced by the
array branch of the source. -/
inductive RepOut where
  | prim (v : JSVal) : RepOut
  | objOut (fields : List (String × JSVal)) : RepOut
  | arrOut (elems : List JSVal) : RepOut

/-- The replacer from `safeStringify`, applied by `JSON.stringify` to
every value before serializing it.  Mirrors the source order: `bigint`
first, then `instanceof Error` (which does not consult or update
`seen`), then the object branch with the `seen` check, the array `map`
(which marks every object item as seen and substitutes the sentinel for
already-seen items), and the own-property shallow copy for plain
objects.  Returns the replaced value and the updated `seen` list. -/
def replacer (h : List HObj) (seen : List Nat) (v : JSVal) : RepOut × List Nat :=
  match v with
  | .bigint n => (.prim (.str (toString n)), seen)
  | .ref a =>
    match h[a]? with
    | some (.errObj name message stack) =>
      (.objOut [("name", .str name), ("message", .str message), ("stack", .str stack)], seen)
    | some ho =>
      if a ∈ seen then (.prim (.str "[Circular]"), seen)
      else
        let seen := a :: seen
        match ho with
        | .arr elems =>
          let step := fun (acc : List JSVal × List Nat) (item : JSVal) =>
            match item with
            | .ref b =>
              if b ∈ acc.2 then (acc.1 ++ [JSVal.str "[Circular]"], acc.2)
              else (acc.1 ++ [item], b :: acc.2)
            | _ => (acc.1 ++ [item], acc.2)
          let mapped := elems.foldl step ([], seen)
          (.arrOut mapped.1, mapped.2)
        | .obj fields => (.objOut fields, seen)
        | .errObj name message stack =>
          (.objOut [("name", .str name), ("message", .str message), ("stack", .str stack)], seen)
    | none => (.prim .undefined, seen)
  | _ => (.prim v, seen)

/-- Serialization of a replaced primitive; `none` models the value
serializing to `undefined` (omitted in objects, `null` in arrays).  The
`bigint` and `ref` cases cannot be produced by `replacer`. -/
def primStr : JSVal → Option String
  | .undefined => none
  | .null => some "null"
  | .bool b => some (if b then "true" else "false")
  | .num n => some (toString n)
  | .str s => some (jsonQuote s)
  | .bigint _ => none
  | .ref _ => none

/-- Pending work item of the `JSON.stringify` walk: a single value, the
members of an object copy, or the elements of a mapped array. -/
inductive SJob where
  | val (v : JSVal) : SJob
  | fields (l : List (String × JSVal)) : SJob
  | elems (l : List JSVal) : SJob

/-- The recursive walk of `JSON.stringify(data, replacer)`.  For a
`val` job the result is the serialized text (or `none` for
`undefined`); for `fields`/`elems` jobs it is the comma-joined body
text.  Fuel only bounds the recursion; `safeStringify` supplies enough
for the walk to finish (the `seen` set makes the walk finite). -/
def serRun (h : List HObj) : Nat → List Nat → SJob → Option String × List Nat
  | 0, seen, _ => (none, seen)
  | fuel + 1, seen, .val v =>
    match replacer h seen v with
    | (.prim w, seen1) => (primStr w, seen1)
    | (.objOut fields, seen1) =>
      let body := serRun h fuel seen1 (.fields fields)
      (some ("\x7b" ++ body.1.getD "" ++ "\x7d"), body.2)
    | (.arrOut elems, seen1) =>
      let body := serRun h fuel seen1 (.elems elems)
      (some ("[" ++ body.1.getD "" ++ "]"), body.2)
  | _ + 1, seen, .fields [] => (some "", seen)
  | fuel + 1, seen, .fields ((key, v) :: rest) =>
    let rv := serRun h fuel seen (.val v)
    let rs := serRun h fuel rv.2 (.fields rest)
    match rv.1 with
    | none => (rs.1, rs.2)
    | some text =>
      let entry := jsonQuote key ++ ":" ++ text
      match rs.1 with
      | some "" => (some entry, rs.2)
      | some t => (some (entry ++ "," ++ t), rs.2)
      | none => (some entry, rs.2)
  | _ + 1, seen, .elems [] => (some "", seen)
  | fuel + 1, seen, .elems (v :: rest) =>
    let rv := serRun h fuel seen (.val v)
    let rs := serRun h fuel rv.2 (.elems rest)
    let text := rv.1.getD "null"
    match rs.1 with
    | some "" => (some text, rs.2)
    | some t => (some (text ++ "," ++ t), rs.2)
    | none => (some text, rs.2)

/-- Fuel that is ample for the serializer walk: the `seen` set lets each
heap object be expanded at most once, so the walk size is bounded by the
total heap size. -/
def serFuel (h : List HObj) : Nat :=
  32 + 16 * h.foldl (fun acc o => acc + 1 + hObjSize o) 0

/-- Embedding of `safeStringify` (src/unnamed/part_002, lines 86-133).
A `none` result models `JSON.stringify` returning `undefined` (which the
source returns unchanged); the `catch` branch of the source cannot fire
in this model, so the result is the replacer-driven stringify output. -/
def safeStringify (h : List HObj) (v : JSVal) : Option String :=
  (serRun h (serFuel h) [] (.val v)).1

/-- Fallback string built by the `catch` branch of `safeStringify`:
`JSON.stringify` of the object with the `Failed to stringify data` error text and the message. -/
def stringifyFallback (msg : String) : String :=
  "\x7b\"error\":\"Failed to stringify data\",\"message\":" ++ jsonQuote msg ++ "\x7d"

/-- Tree denotation of an acyclic heap value (modelling bridge used to
compare a heap payload with a parsed tree); `none` on cycles, dangling
references or `bigint` (which have no JSON-tree denotation). -/
def readRun (h : List HObj) : Nat → SJob → Option JData
  | 0, _ => none
  | fuel + 1, .val v =>
    match v with
    | .undefined => some .undefined
    | .null => some .null
    | .bool b => some (.bool b)
    | .num n => some (.num n)
    | .str s => some (.str s)
    | .bigint _ => none
    | .ref a =>
      match h[a]? with
      | some (.obj fields) => readRun h fuel (.fields fields)
      | some (.arr elems) => readRun h fuel (.elems elems)
      | some (.errObj name message stack) =>
        some (.obj [("name", .str name), ("message", .str message), ("stack", .str stack)])
      | none => none
  | _ + 1, .fields [] => some (.obj [])
  | fuel + 1, .fields ((key, v) :: rest) =>
    match readRun h fuel (.val v), readRun h fuel (.fields rest) with
    | some jv, some (.obj frest) => some (.obj ((key, jv) :: frest))
    | _, _ => none
  | _ + 1, .elems [] => some (.arr [])
  | fuel + 1, .elems (v :: rest) =>
    match readRun h fuel (.val v), readRun h fuel (.elems rest) with
    | some jv, some (.arr erest) => some (.arr (jv :: erest))
    | _, _ => none

/-- Tree denotation of a heap value with ample fuel. -/
def readTree (h : List HObj) (v : JSVal) : Option JData :=
  readRun h (serFuel h) (.val v)

/-! ### Chunker and Reassembler

Embedding of `chunkData` (src/unnamed/part_002, lines 135-167),
`assembleChunks` (lines 169-181) and the chunk branch of
`handleMessage` (lines 287-320). -/

/-- Wire fragment of a chunked message (the `chunk` type tag is implicit in
the Lean type). -/
structure ChunkedMessage where
  id : String
  chunk : Nat
  total : Nat
  data : String

/-- Chunk size constant of the source (1MB). -/
def MAX_CHUNK_SIZE : Nat := 1000000

/-- Engine-specific message of the TypeError thrown when `safeStringify`
returns `undefined` and `.length` is read from it (V8 wording); no
theorem depends on this text. -/
def lengthOfUndefinedMessage : String :=
  "Cannot read properties of undefined (reading 'length')"

/-- Embedding of `chunkData`, parameterized by the chunk size so the
slicing arithmetic can be stated for any positive limit; the source uses
the fixed `MAX_CHUNK_SIZE`.  `Math.ceil(len/size)` is `(len+size-1)/size`
and `slice(start, min(start+size, len))` is `drop`/`take`.  When
`safeStringify` yields `undefined`, reading `.length` throws and the
`catch` produces the single fallback fragment. -/
def chunkDataWith (size : Nat) (h : List HObj) (v : JSVal) (msgId : String) :
    List ChunkedMessage :=
  match safeStringify h v with
  | some jsonString =>
    let totalChunks := (jsonString.data.length + size - 1) / size
    (List.range totalChunks).map (fun i =>
      { id := msgId, chunk := i, total := totalChunks,
        data := String.mk ((jsonString.data.drop (i * size)).take size) })
  | none =>
    [{ id := msgId, chunk := 0, total := 1,
       data := "\x7b\"error\":\"Failed to chunk data\",\"message\":" ++
         jsonQuote lengthOfUndefinedMessage ++ "\x7d" }]

/-- Embedding of `chunkData` at the fixed chunk size of the source. -/
def chunkData (h : List HObj) (v : JSVal) (msgId : String) : List ChunkedMessage :=
  chunkDataWith MAX_CHUNK_SIZE h v msgId

/-- Engine-specific message of the SyntaxError thrown by `JSON.parse` on
malformed input; no theorem depends on this text. -/
def jsonSyntaxErrorMessage : String := "Unexpected token in JSON"

/-- Embedding of `assembleChunks`.  The argument is the (possibly
sparse) buffer array: in `handleMessage` the slot at index `i` always
holds a fragment with `chunk = i`, so `sort((a,b) => a.chunk - b.chunk)`
(which moves holes to the end) compacts the present fragments in index
order; `.map` preserves the holes and the empty-separator `.join` turns them into the
empty string.  A parse failure is caught and yields the fallback
object. -/
def assembleChunks (chunks : List (Option ChunkedMessage)) : JData :=
  let jsonString := String.join (chunks.filterMap (fun oc => oc.map (fun c => c.data)))
  match jsonParse jsonString with
  | some v => v
  | none =>
    .obj [("error", .str "Failed to assemble chunks"),
          ("message", .str jsonSyntaxErrorMessage)]

/-- Insertion-ordered map operations modelling the JavaScript `Map`s of
the relay. -/
def mapGet (l : List (String × α)) (k : String) : Option α := l.lookup k

/-- `Map.set`. -/
def mapSet (l : List (String × α)) (k : String) (v : α) : List (String × α) :=
  if (l.lookup k).isSome then
    l.map (fun p => if p.1 == k then (k, v) else p)
  else l ++ [(k, v)]

/-- `Map.delete`. -/
def mapDelete (l : List (String × α)) (k : String) : List (String × α) :=
  l.filter (fun p => p.1 != k)

/-- JavaScript sparse-array index assignment `a[i] = x`: assigning past
the end pads with holes, and `a.length` becomes `max (a.length) (i+1)`. -/
def jsArraySet (l : List (Option α)) (i : Nat) (x : α) : List (Option α) :=
  if i < l.length then l.set i (some x)
  else l ++ List.replicate (i - l.length) none ++ [some x]

/-- Number of populated slots of a buffer. -/
def populatedSlots (l : List (Option α)) : Nat := (l.filterMap id).length

/-- Reassembly state of the relay: the `chunkedMessages` buffer map, the
`messageTimeout` map from message id to its timer token, the set of
timers currently pending in the runtime, and a fresh-token counter. -/
structure RelayBuffers where
  chunkedMessages : List (String × List (Option ChunkedMessage))
  messageTimeout : List (String × Nat)
  pendingTimers : List Nat
  nextTimer : Nat

/-- Initial (empty) reassembly state. -/
def RelayBuffers.empty : RelayBuffers :=
  { chunkedMessages := [], messageTimeout := [], pendingTimers := [], nextTimer := 0 }

/-- Embedding of the chunk branch of `handleMessage` (src/unnamed/
part_002, lines 289-320): store the fragment at its index, reset the
30-second timer of the id, and when `chunks.length === data.total` cancel the
timer, assemble, drop the buffer entry and dispatch the assembled value
(returned as `some`). -/
def handleChunkMessage (st : RelayBuffers) (c : ChunkedMessage) :
    RelayBuffers × Option JData :=
  let chunks := jsArraySet ((mapGet st.chunkedMessages c.id).getD []) c.chunk c
  let st1 := { st with chunkedMessages := mapSet st.chunkedMessages c.id chunks }
  let st2 :=
    match mapGet st1.messageTimeout c.id with
    | some tok =>
      { st1 with pendingTimers := st1.pendingTimers.filter (fun t => t != tok),
                 messageTimeout := mapDelete st1.messageTimeout c.id }
    | none => st1
  let tok := st2.nextTimer
  let st3 := { st2 with pendingTimers := st2.pendingTimers ++ [tok],
                        nextTimer := tok + 1,
                        messageTimeout := mapSet st2.messageTimeout c.id tok }
  if chunks.length == c.total then
    ({ st3 with pendingTimers := st3.pendingTimers.filter (fun t => t != tok),
                messageTimeout := mapDelete st3.messageTimeout c.id,
                chunkedMessages := mapDelete st3.chunkedMessages c.id },
     some (assembleChunks chunks))
  else (st3, none)

/-! ### SDK lifecycle (listener registration and teardown)

Embedding of `initializeSwap` (src/unnamed/part_002, lines 233-258) and
`disconnect` (lines 496-505).  Listener identity matters because the
source registers `this.handleMessage.bind(this)` and later calls
`removeEventListener` with a second, distinct `bind` result: each
evaluation of `.bind(this)` is modelled as a fresh token drawn from
`nextBound`. -/
structure SdkLifecycle where
  listeners : List Nat
  nextBound : Nat
  provider : Option Unit
  iframe : Option Unit
  messageHandlers : List String
  buffers : RelayBuffers

/-- Freshly constructed SDK (class field initializers). -/
def SdkLifecycle.fresh : SdkLifecycle :=
  { listeners := [], nextBound := 0, provider := none, iframe := none,
    messageHandlers := [], buffers := RelayBuffers.empty }

/-- Embedding of `initializeSwap` on the state the claims are about
(provider acquisition assumed to succeed; iframe handle attached;
`addEventListener` with `this.handleMessage.bind(this)` registers a
fresh bound-function token). -/
def initializeSwap (st : SdkLifecycle) : SdkLifecycle :=
  { st with provider := some (), iframe := some (),
            messageHandlers := ["eth_requestAccounts", "eth_sendTransaction"],
            listeners := st.listeners ++ [st.nextBound],
            nextBound := st.nextBound + 1 }

/-- Embedding of `disconnect`:
`removeEventListener` with `this.handleMessage.bind(this)` is given
a fresh bound function (token `st.nextBound`), removal of which is a
no-op when that token was never registered; the iframe and provider
handles are nulled, both maps are cleared, and every timer recorded in
`messageTimeout` is cancelled. -/
def disconnect (st : SdkLifecycle) : SdkLifecycle :=
  let removeTok := st.nextBound
  { listeners := st.listeners.filter (fun t => t != removeTok),
    nextBound := st.nextBound + 1,
    provider := none, iframe := none, messageHandlers := [],
    buffers :=
      { chunkedMessages := [],
        messageTimeout := [],
        pendingTimers := st.buffers.pendingTimers.filter
          (fun t => !(st.buffers.messageTimeout.any (fun p => p.2 == t))),
        nextTimer := st.buffers.nextTimer } }

/-! ### JSON-RPC dispatch

Embedding of `isJsonRpcRequest` (src/unnamed/part_002, lines 64-72) and
of `handleJsonRpcRequest` for the `SwapSDK` relay (src/unnamed/part_002,
lines 330-441) and the `SwapEmbedComponent` relay (src/unnamed/part_003,
lines 434-538).  The wallet provider is an external collaborator,
modelled as an oracle from method name and argument list to either a
result value or a thrown error whose `message` may be absent; the
dispatcher additionally returns the list of provider calls it made. -/

/-- Strict equality `d === s` against a string literal. -/
def jsStrictEqStr (d : JData) (s : String) : Bool :=
  match d with
  | .str t => t == s
  | _ => false

/-- Strict inequality `d !== undefined`. -/
def jsNotUndef (d : JData) : Bool :=
  match d with
  | .undefined => false
  | _ => true

/-- Strict inequality `d !== null`. -/
def jsNotNull (d : JData) : Bool :=
  match d with
  | .null => false
  | _ => true

/-- Embedding of the shape guard `isJsonRpcRequest`, clause for clause:
the object type test, `data !== null`, the `jsonrpc` field equal to `2.0`, the
`method` field of string type, and `(data.id !== undefined || data.id !==
null)`. -/
def isJsonRpcRequest (d : JData) : Bool :=
  jsTypeofObject d && jsNotNull d && jsStrictEqStr (dGet d "jsonrpc") "2.0" &&
    jsIsString (dGet d "method") &&
    (jsNotUndef (dGet d "id") || jsNotNull (dGet d "id"))

/-- JSON-RPC request after the destructuring
`const { id, method, params } = requestData`; a missing member is
`undefined`.  The shape guard ensures `method` is a string. -/
structure JsonRpcRequest where
  id : JData
  method : String
  params : JData

/-- JSON-RPC error member. -/
structure RpcError where
  code : Int
  message : String

/-- JSON-RPC response; `none` models an absent member. -/
structure JsonRpcResponse where
  id : JData
  result : Option JData
  error : Option RpcError

/-- View of a guarded inbound object as a request (the relay dispatches
`data` itself; `method` is extracted as the string the guard checked). -/
def requestOfData (d : JData) : JsonRpcRequest :=
  { id := dGet d "id",
    method := match dGet d "method" with | .str s => s | _ => "",
    params := dGet d "params" }

/-- External wallet provider: `send(method, params)` either resolves to
a value or rejects with an error whose `message` may be absent. -/
structure ProviderModel where
  send : String → List JData → Except (Option String) JData

/-- JavaScript `error.message || fallback` (an absent or empty message
selects the fallback). -/
def jsOr : Option String → String → String
  | some m, fb => if m == "" then fb else m
  | none, fb => fb

/-- The `switch (method)` of the `SwapSDK` relay dispatcher, branch for
branch; returns `(result, error, provider calls)`.  Parameter-check
failures are the thrown `Invalid parameters ...` errors that the outer
`catch` converts to a `-32000` response. -/
def runMethod (p : ProviderModel) (method : String) (params : JData) :
    Option JData × Option RpcError × List (String × List JData) :=
  if method == "eth_requestAccounts" || method == "enable" then
    match p.send "eth_requestAccounts" [] with
    | .ok accounts => (some accounts, none, [("eth_requestAccounts", [])])
    | .error e =>
      (none, some ⟨-32000, jsOr e "Failed to request accounts"⟩, [("eth_requestAccounts", [])])
  else if method == "eth_accounts" then
    match p.send "eth_accounts" [] with
    | .ok accounts => (some accounts, none, [("eth_accounts", [])])
    | .error e => (none, some ⟨-32000, jsOr e "Failed to get accounts"⟩, [("eth_accounts", [])])
  else if method == "eth_chainId" then
    match p.send "eth_chainId" [] with
    | .ok chainId => (some chainId, none, [("eth_chainId", [])])
    | .error e => (none, some ⟨-32000, jsOr e "Failed to get chain ID"⟩, [("eth_chainId", [])])
  else if method == "wallet_switchEthereumChain" then
    if !(jsTruthy params) || !(jsIsArray params) ||
        !(jsTruthy (dOptGet (dIdx params 0) "chainId")) then
      (none, some ⟨-32000, "Invalid parameters for wallet_switchEthereumChain"⟩, [])
    else
      match p.send "wallet_switchEthereumChain" [dGet (dIdx params 0) "chainId"] with
      | .ok _ => (some .null, none, [("wallet_switchEthereumChain", [dGet (dIdx params 0) "chainId"])])
      | .error e =>
        (none, some ⟨-32000, jsOr e "Failed to switch chain"⟩,
         [("wallet_switchEthereumChain", [dGet (dIdx params 0) "chainId"])])
  else if method == "eth_sendTransaction" then
    if !(jsTruthy params) || !(jsIsArray params) || !(jsTruthy (dIdx params 0)) then
      (none, some ⟨-32000, "Invalid parameters for eth_sendTransaction"⟩, [])
    else
      match p.send "eth_sendTransaction" [dIdx params 0] with
      | .ok txHash => (some txHash, none, [("eth_sendTransaction", [dIdx params 0])])
      | .error e =>
        (none, some ⟨-32000, jsOr e "Failed to send transaction"⟩,
         [("eth_sendTransaction", [dIdx params 0])])
  else if method == "personal_sign" then
    if !(jsTruthy params) || !(jsIsArray params) || !(jsIsString (dIdx params 0)) then
      (none, some ⟨-32000, "Invalid parameters for personal_sign"⟩, [])
    else
      match p.send "personal_sign" [dIdx params 0, dIdx params 1] with
      | .ok signature => (some signature, none, [("personal_sign", [dIdx params 0, dIdx params 1])])
      | .error e =>
        (none, some ⟨-32000, jsOr e "Failed to sign message"⟩,
         [("personal_sign", [dIdx params 0, dIdx params 1])])
  else (none, some ⟨-32601, "Method not found: " ++ method⟩, [])

/-- Embedding of `SwapSDK.handleJsonRpcRequest`: the response starts as
an object holding only the id and protocol version; a null provider throws before the switch, and
the outer `catch` turns that into a `-32000` error response. -/
def handleJsonRpcRequest (prov : Option ProviderModel) (req : JsonRpcRequest) :
    JsonRpcResponse × List (String × List JData) :=
  match prov with
  | none => ({ id := req.id, result := none,
               error := some ⟨-32000, "Provider not initialized"⟩ }, [])
  | some p =>
    let r := runMethod p req.method req.params
    ({ id := req.id, result := r.1, error := r.2.1 }, r.2.2)

/-- The `switch (method)` of the `SwapEmbedComponent` relay
(src/unnamed/part_003): identical to `runMethod` except that
`eth_accounts` answers from the cached `address` React state with no
provider call, and `personal_sign` passes the cached address as the
signer.  `setAddress` side effects are not needed by the claims and are
not modelled. -/
def embedRunMethod (p : ProviderModel) (address : Option String) (method : String)
    (params : JData) : Option JData × Option RpcError × List (String × List JData) :=
  if method == "eth_requestAccounts" || method == "enable" then
    match p.send "eth_requestAccounts" [] with
    | .ok accounts => (some accounts, none, [("eth_requestAccounts", [])])
    | .error e =>
      (none, some ⟨-32000, jsOr e "Failed to request accounts"⟩, [("eth_requestAccounts", [])])
  else if method == "eth_accounts" then
    (some (.arr (match address with | some a => [.str a] | none => [])), none, [])
  else if method == "eth_chainId" then
    match p.send "eth_chainId" [] with
    | .ok chainId => (some chainId, none, [("eth_chainId", [])])
    | .error e => (none, some ⟨-32000, jsOr e "Failed to get chain ID"⟩, [("eth_chainId", [])])
  else if method == "wallet_switchEthereumChain" then
    if !(jsTruthy params) || !(jsIsArray params) ||
        !(jsTruthy (dOptGet (dIdx params 0) "chainId")) then
      (none, some ⟨-32000, "Invalid parameters for wallet_switchEthereumChain"⟩, [])
    else
      match p.send "wallet_switchEthereumChain" [dGet (dIdx params 0) "chainId"] with
      | .ok _ => (some .null, none, [("wallet_switchEthereumChain", [dGet (dIdx params 0) "chainId"])])
      | .error e =>
        (none, some ⟨-32000, jsOr e "Failed to switch chain"⟩,
         [("wallet_switchEthereumChain", [dGet (dIdx params 0) "chainId"])])
  else if method == "eth_sendTransaction" then
    if !(jsTruthy params) || !(jsIsArray params) || !(jsTruthy (dIdx params 0)) then
      (none, some ⟨-32000, "Invalid parameters for eth_sendTransaction"⟩, [])
    else
      match p.send "eth_sendTransaction" [dIdx params 0] with
      | .ok txHash => (some txHash, none, [("eth_sendTransaction", [dIdx params 0])])
      | .error e =>
        (none, some ⟨-32000, jsOr e "Failed to send transaction"⟩,
         [("eth_sendTransaction", [dIdx params 0])])
  else if method == "personal_sign" then
    if !(jsTruthy params) || !(jsIsArray params) || !(jsIsString (dIdx params 0)) then
      (none, some ⟨-32000, "Invalid parameters for personal_sign"⟩, [])
    else
      let signer : JData := match address with | some a => .str a | none => .null
      match p.send "personal_sign" [dIdx params 0, signer] with
      | .ok signature => (some signature, none, [("personal_sign", [dIdx params 0, signer])])
      | .error e =>
        (none, some ⟨-32000, jsOr e "Failed to sign message"⟩,
         [("personal_sign", [dIdx params 0, signer])])
  else (none, some ⟨-32601, "Method not found: " ++ method⟩, [])

/-- Embedding of the `SwapEmbedComponent` dispatcher
(src/unnamed/part_003, lines 434-538); `address` is the cached React
state, `none` until a successful `eth_requestAccounts`. -/
def embedHandleJsonRpcRequest (prov : Option ProviderModel) (address : Option String)
    (req : JsonRpcRequest) : JsonRpcResponse × List (String × List JData) :=
  match prov with
  | none => ({ id := req.id, result := none,
               error := some ⟨-32000, "Provider not initialized"⟩ }, [])
  | some p =>
    let r := embedRunMethod p address req.method req.params
    ({ id := req.id, result := r.1, error := r.2.1 }, r.2.2)



/-! ### Concrete provider oracles used by witnesses and counterexamples -/

/-- Provider that resolves every call with the empty array. -/
def provOkEmpty : ProviderModel := ⟨fun _ _ => .ok (.arr [])⟩

/-- Provider that rejects every call with message "provider failure". -/
def provFail : ProviderModel := ⟨fun _ _ => .error (some "provider failure")⟩

/-! ### Helper lemmas -/

/-- The data of an appended string is the appended data. -/
theorem strData_append (s t : String) : (s ++ t).data = s.data ++ t.data := rfl

/-- Rebuilding a string from its character data is the identity. -/
theorem strMk_data (s : String) : String.mk s.data = s := rfl

/-- Every list starts with the empty literal. -/
theorem listStarts_nil (s : List Char) : listStarts s [] = true := by
  cases s <;> rfl

/-- A list starts with its own prefix. -/
theorem listStarts_self_append (p t : List Char) : listStarts (p ++ t) p = true := by
  induction p with
  | nil => simp [listStarts_nil]
  | cons c cs ih => simp [listStarts, ih]

/-- The response of the SwapSDK dispatcher always echoes the request id. -/
theorem handleJsonRpcRequest_id (prov : Option ProviderModel) (req : JsonRpcRequest) :
    (handleJsonRpcRequest prov req).1.id = req.id := by
  cases prov <;> rfl

/-- Branch analysis of `runMethod`: every branch of the switch sets exactly
one of `result`/`error`. -/
theorem runMethod_exactly_one (p : ProviderModel) (m : String) (params : JData) :
    (runMethod p m params).1.isSome = !((runMethod p m params).2.1.isSome) := by
  unfold runMethod
  repeat' split
  all_goals rfl

/-- A string beginning `http://www.` (with any tail) does not start with
the literal `https://www.`. -/
theorem not_starts_https_www (l : List Char) :
    listStarts ("http://www.".data ++ l) "https://www.".data = false := by
  have hd : "https://www.".data
      = 'h' :: 't' :: 't' :: 'p' :: 's' :: ':' :: '/' :: '/' :: 'w' :: 'w' :: 'w' :: '.' :: [] := rfl
  have hs : "http://www.".data
      = 'h' :: 't' :: 't' :: 'p' :: ':' :: '/' :: '/' :: 'w' :: 'w' :: 'w' :: '.' :: [] := rfl
  rw [hd, hs]
  simp [listStarts]

/-- Dropping the length of the left part of an append yields the right
part. -/
theorem dropAppendSelf (l t : List Char) : (l ++ t).drop l.length = t := by
  induction l with
  | nil => rfl
  | cons c cs ih => simp [ih]

/-- Under the source normalization, a `http://www.`-prefixed origin is
rewritten to the `https://` scheme. -/
theorem normalizeOrigin_http_www (hst : String) :
    normalizeOrigin ("http://www." ++ hst) = "https://" ++ hst := by
  unfold normalizeOrigin strStarts
  rw [strData_append, not_starts_https_www, listStarts_self_append]
  simp only [Bool.false_eq_true, if_false, if_true, ite_true, ite_false]
  rw [show (11:Nat) = ("http://www.".data).length from rfl, dropAppendSelf]
  rfl

/-- Under the source normalization, a `https://www.`-prefixed origin
drops the `www.` label. -/
theorem normalizeOrigin_https_www (hst : String) :
    normalizeOrigin ("https://www." ++ hst) = "https://" ++ hst := by
  unfold normalizeOrigin strStarts
  rw [strData_append, listStarts_self_append]
  simp only [if_true, ite_true]
  rw [show (12:Nat) = ("https://www.".data).length from rfl, dropAppendSelf]
  rfl

/-! ### Claims -/

/-- C1: the claim states that fragments delivered in any permutation of
their index order reassemble to the same value as in-order delivery and
that reassembly completes exactly when the number of populated slots
equals the fragment total, never earlier.  The code instead completes
when the sparse buffer LENGTH (highest index + 1) equals the total: for
the two-fragment message `[0,1]` produced by the chunker, delivering
fragment index 1 first completes immediately with slot 0 still empty,
assembles only the tail text and dispatches the parse-failure fallback
object, while in-order delivery reconstructs `[0,1]`. -/
theorem c1_premature_completion_on_out_of_order :
    chunkDataWith 3 [.arr [.num 0, .num 1]] (.ref 0) "m"
      = [⟨"m", 0, 2, "[0,"⟩, ⟨"m", 1, 2, "1]"⟩] ∧
    (handleChunkMessage RelayBuffers.empty ⟨"m", 0, 2, "[0,"⟩).2 = none ∧
    (handleChunkMessage (handleChunkMessage RelayBuffers.empty ⟨"m", 0, 2, "[0,"⟩).1
        ⟨"m", 1, 2, "1]"⟩).2 = some (.arr [.num 0, .num 1]) ∧
    (handleChunkMessage RelayBuffers.empty ⟨"m", 1, 2, "1]"⟩).2
      = some (.obj [("error", .str "Failed to assemble chunks"),
                    ("message", .str jsonSyntaxErrorMessage)]) ∧
    (jsArraySet ([] : List (Option ChunkedMessage)) 1 ⟨"m", 1, 2, "1]"⟩).length = 2 ∧
    populatedSlots (jsArraySet ([] : List (Option ChunkedMessage)) 1 ⟨"m", 1, 2, "1]"⟩) = 1 :=
  ⟨rfl, rfl, rfl, rfl, rfl, rfl⟩

/-- C2: the claim states `assemble(chunk(P, id, L)) == P` for every
payload.  For the cycle-free payload `P = [{}]` (heap slot 0 holds the
array, slot 1 the empty object it contains) the array branch of the serializer
branch marks the element as seen while mapping and the replacer then
substitutes the sentinel on the element itself, so the round trip yields
`["[Circular]"]`, not `P`. -/
theorem c2_roundtrip_fails_on_array_of_object :
    readTree [.arr [.ref 1], .obj []] (.ref 0) = some (.arr [.obj []]) ∧
    assembleChunks ((chunkData [.arr [.ref 1], .obj []] (.ref 0) "m").map some)
      = .arr [.str "[Circular]"] ∧
    JData.arr [.str "[Circular]"] ≠ JData.arr [.obj []] :=
  ⟨rfl, rfl, by simp⟩

/-- C3 counterexample: the claim describes normalization as stripping a
leading `www.` label (leaving the scheme alone) and production admission
as equality of the so-normalized origins; but the code also rewrites the
scheme to `https`, so `http://www.example.com` is accepted against
`https://example.com` in production even though the normalization
worded by the claim keeps them distinct. -/
theorem c3_production_gate_counterexample :
    isAllowed "http://www.example.com" "https://example.com" true = true ∧
    specNormalizeOrigin "http://www.example.com" ≠ specNormalizeOrigin "https://example.com" := by
  constructor
  · decide
  · decide

/-- C3 amended: normalization rewrites a leading `http(s)://www.` to
`https://` (stripping `www.` and forcing the `https` scheme); in
production a message is allowed iff the so-normalized origins are equal,
in non-production also when the origin has a localhost, 127.0.0.1,
[::1] or file: prefix; the three examples of the claim hold as stated. -/
theorem c3_origin_gate_amended :
    (∀ m e : String, isAllowed m e true = (normalizeOrigin m == normalizeOrigin e)) ∧
    (∀ m e : String,
      isAllowed m e false = (isLocalDevOrigin m || normalizeOrigin m == normalizeOrigin e)) ∧
    isAllowed "https://example.com" "https://www.example.com" true = true ∧
    isAllowed "https://www.example.com" "https://example.com" true = true ∧
    isAllowed "https://example.com" "https://www.example.com" false = true ∧
    isAllowed "https://www.example.com" "https://example.com" false = true ∧
    isAllowed "https://example.com" "https://evil.com" true = false ∧
    isAllowed "http://localhost:5173" "https://example.com" false = true ∧
    isAllowed "http://localhost:5173" "https://example.com" true = false :=
  ⟨fun _ _ => rfl, fun _ _ => rfl, by decide, by decide, by decide, by decide, by decide,
   by decide, by decide⟩

/-- C4: the claim states that after `disconnect` the message listener is
removed so no further inbound messages are processed.  The code calls
`removeEventListener` with a fresh `this.handleMessage.bind(this)`,
a different function object from the one `initializeSwap` registered,
so the removal is a no-op: after a full initialize / receive-fragment /
disconnect run the buffers, timers, iframe and provider are indeed
released, but the original listener (token 0) is still registered. -/
theorem c4_disconnect_does_not_remove_listener :
    (initializeSwap SdkLifecycle.fresh).listeners = [0] ∧
    ((disconnect { initializeSwap SdkLifecycle.fresh with
        buffers := (handleChunkMessage (initializeSwap SdkLifecycle.fresh).buffers
          ⟨"m", 0, 2, "[0,"⟩).1 }).provider = none ∧
     (disconnect { initializeSwap SdkLifecycle.fresh with
        buffers := (handleChunkMessage (initializeSwap SdkLifecycle.fresh).buffers
          ⟨"m", 0, 2, "[0,"⟩).1 }).iframe = none ∧
     (disconnect { initializeSwap SdkLifecycle.fresh with
        buffers := (handleChunkMessage (initializeSwap SdkLifecycle.fresh).buffers
          ⟨"m", 0, 2, "[0,"⟩).1 }).buffers.chunkedMessages = [] ∧
     (disconnect { initializeSwap SdkLifecycle.fresh with
        buffers := (handleChunkMessage (initializeSwap SdkLifecycle.fresh).buffers
          ⟨"m", 0, 2, "[0,"⟩).1 }).buffers.messageTimeout = [] ∧
     (disconnect { initializeSwap SdkLifecycle.fresh with
        buffers := (handleChunkMessage (initializeSwap SdkLifecycle.fresh).buffers
          ⟨"m", 0, 2, "[0,"⟩).1 }).buffers.pendingTimers = []) ∧
    (disconnect { initializeSwap SdkLifecycle.fresh with
        buffers := (handleChunkMessage (initializeSwap SdkLifecycle.fresh).buffers
          ⟨"m", 0, 2, "[0,"⟩).1 }).listeners = [0] :=
  ⟨rfl, ⟨rfl, rfl, rfl, rfl, rfl⟩, rfl⟩

/-- C5 counterexample: the claim states that a dispatched `eth_accounts`
request yields the default empty/cached value of the relay with no
wallet-provider call attempted and never an error response.  In the
`SwapSDK` relay the `eth_accounts` branch re-queries the provider: the
call list is nonempty, and a failing provider produces a `-32000` error
response. -/
theorem c5_sdk_eth_accounts_counterexample :
    (handleJsonRpcRequest (some provFail) ⟨.num 1, "eth_accounts", .undefined⟩).2
      = [("eth_accounts", [])] ∧
    (handleJsonRpcRequest (some provFail) ⟨.num 1, "eth_accounts", .undefined⟩).1.error
      = some ⟨-32000, "provider failure"⟩ ∧
    (handleJsonRpcRequest (some provFail) ⟨.num 1, "eth_accounts", .undefined⟩).1.result = none :=
  ⟨rfl, rfl, rfl⟩

/-- C5 amended: only the `SwapEmbedComponent` relay implements the
cached policy: with no prior `eth_requestAccounts` (cached address
`none`) it answers `eth_accounts` with the empty list, no provider call
and no error (and with a cached address, with that singleton list); the
`SwapSDK` relay instead re-queries the provider on every `eth_accounts`
dispatch, returning the provider list on success and a `-32000` error
on provider failure. -/
theorem c5_eth_accounts_policy_amended :
    (∀ (p : ProviderModel) (id params : JData),
      embedHandleJsonRpcRequest (some p) none ⟨id, "eth_accounts", params⟩
        = ({ id := id, result := some (.arr []), error := none }, [])) ∧
    (∀ (p : ProviderModel) (a : String) (id params : JData),
      embedHandleJsonRpcRequest (some p) (some a) ⟨id, "eth_accounts", params⟩
        = ({ id := id, result := some (.arr [.str a]), error := none }, [])) ∧
    (∀ (p : ProviderModel) (id params v : JData),
      p.send "eth_accounts" [] = .ok v →
      handleJsonRpcRequest (some p) ⟨id, "eth_accounts", params⟩
        = ({ id := id, result := some v, error := none }, [("eth_accounts", [])])) ∧
    (∀ (p : ProviderModel) (id params : JData) (e : Option String),
      p.send "eth_accounts" [] = .error e →
      handleJsonRpcRequest (some p) ⟨id, "eth_accounts", params⟩
        = ({ id := id, result := none,
             error := some ⟨-32000, jsOr e "Failed to get accounts"⟩ },
           [("eth_accounts", [])])) := by
  refine ⟨fun p id params => rfl, fun p a id params => rfl, ?_, ?_⟩
  · intro p id params v hsend
    simp [handleJsonRpcRequest, runMethod, hsend]
  · intro p id params e hsend
    simp [handleJsonRpcRequest, runMethod, hsend]

/-- C5 amended witness: the third conjunct applied to the concrete
always-empty provider. -/
theorem c5_eth_accounts_policy_amended_witness :
    handleJsonRpcRequest (some provOkEmpty) ⟨.num 1, "eth_accounts", .undefined⟩
      = ({ id := .num 1, result := some (.arr []), error := none }, [("eth_accounts", [])]) :=
  c5_eth_accounts_policy_amended.2.2.1 provOkEmpty (.num 1) .undefined (.arr []) rfl

/-- C6: for every dispatched JSON-RPC request the response echoes the
request id unchanged and contains exactly one of `result`/`error` (a
null provider synthesizes the error member). -/
theorem c6_response_id_and_exactly_one (prov : Option ProviderModel) (req : JsonRpcRequest) :
    (handleJsonRpcRequest prov req).1.id = req.id ∧
    (handleJsonRpcRequest prov req).1.result.isSome
      = !((handleJsonRpcRequest prov req).1.error.isSome) := by
  refine ⟨handleJsonRpcRequest_id prov req, ?_⟩
  cases prov with
  | none => rfl
  | some p => exact runMethod_exactly_one p req.method req.params

/-- C8 counterexample: the claim states that every dispatch of an
unsupported method yields the `-32601` method-not-found error; but when
the provider handle is null (reachable after `disconnect`, whose
listener removal is a no-op) the dispatcher throws before the switch and
answers `-32000` "Provider not initialized" even for `foo_bar`. -/
theorem c8_unknown_method_null_provider_counterexample :
    handleJsonRpcRequest none ⟨.num 1, "foo_bar", .undefined⟩
      = ({ id := .num 1, result := none,
           error := some ⟨-32000, "Provider not initialized"⟩ }, []) ∧
    (-32000 : Int) ≠ -32601 :=
  ⟨rfl, by decide⟩

/-- C8 amended: provided the provider handle is non-null, dispatching
any method outside the supported set yields no result, no provider call,
and the error `{code: -32601, message: "Method not found: <method>"}`;
with a null provider the response is the `-32000` provider-not-
initialized error instead. -/
theorem c8_unknown_method_amended (p : ProviderModel) (id params : JData) (m : String)
    (h1 : m ≠ "eth_requestAccounts") (h2 : m ≠ "enable") (h3 : m ≠ "eth_accounts")
    (h4 : m ≠ "eth_chainId") (h5 : m ≠ "wallet_switchEthereumChain")
    (h6 : m ≠ "eth_sendTransaction") (h7 : m ≠ "personal_sign") :
    handleJsonRpcRequest (some p) ⟨id, m, params⟩
      = ({ id := id, result := none,
           error := some ⟨-32601, "Method not found: " ++ m⟩ }, []) := by
  simp [handleJsonRpcRequest, runMethod, h1, h2, h3, h4, h5, h6, h7]

/-- C8 amended witness: the amended theorem applied to the unrecognized
method `foo_bar` with a concrete provider. -/
theorem c8_unknown_method_amended_witness :
    handleJsonRpcRequest (some provOkEmpty) ⟨.num 1, "foo_bar", .undefined⟩
      = ({ id := .num 1, result := none,
           error := some ⟨-32601, "Method not found: foo_bar"⟩ }, []) :=
  c8_unknown_method_amended provOkEmpty (.num 1) .undefined "foo_bar" (by decide) (by decide)
    (by decide) (by decide) (by decide) (by decide) (by decide)

/-- C9: origin normalization rewrites the scheme together with the
`www.` label: both `http://www.` and `https://www.` prefixes normalize
to `https://` plus the remaining host text, so in production
`http://www.example.com` is accepted against expected
`https://example.com` but rejected against expected
`http://example.com`. -/
theorem c9_normalization_rewrites_scheme :
    (∀ hst : String, normalizeOrigin ("http://www." ++ hst) = "https://" ++ hst) ∧
    (∀ hst : String, normalizeOrigin ("https://www." ++ hst) = "https://" ++ hst) ∧
    isAllowed "http://www.example.com" "https://example.com" true = true ∧
    isAllowed "http://www.example.com" "http://example.com" true = false :=
  ⟨normalizeOrigin_http_www, normalizeOrigin_https_www, by decide, by decide⟩

/-- Unfolding of one serializer step on a value job. -/
theorem serRun_val_unfold (h : List HObj) (fuel : Nat) (seen : List Nat) (v : JSVal) :
    serRun h (fuel + 1) seen (.val v)
      = match replacer h seen v with
        | (.prim w, s1) => (primStr w, s1)
        | (.objOut fs, s1) =>
          (some ("\x7b" ++ (serRun h fuel s1 (.fields fs)).1.getD "" ++ "\x7d"),
           (serRun h fuel s1 (.fields fs)).2)
        | (.arrOut es, s1) =>
          (some ("[" ++ (serRun h fuel s1 (.elems es)).1.getD "" ++ "]"),
           (serRun h fuel s1 (.elems es)).2) := rfl

/-- C10: the shape guard accepts every non-null object whose `jsonrpc`
is "2.0" and whose `method` is a string, regardless of `id`: the guard
id clause `(data.id !== undefined || data.id !== null)` is a tautology,
so an id-less request passes the guard and is answered with the
undefined id echoed. -/
theorem c10_shape_guard_id_tautology :
    (∀ d : JData, (jsNotUndef d || jsNotNull d) = true) ∧
    (∀ d : JData, jsTypeofObject d = true → jsNotNull d = true →
      jsStrictEqStr (dGet d "jsonrpc") "2.0" = true →
      jsIsString (dGet d "method") = true →
      isJsonRpcRequest d = true) ∧
    (∀ (prov : Option ProviderModel) (d : JData), dGet d "id" = .undefined →
      (handleJsonRpcRequest prov (requestOfData d)).1.id = .undefined) := by
  refine ⟨?_, ?_, ?_⟩
  · intro d; cases d <;> rfl
  · intro d h1 h2 h3 h4
    have taut : (jsNotUndef (dGet d "id") || jsNotNull (dGet d "id")) = true := by
      cases hd : dGet d "id" <;> rfl
    unfold isJsonRpcRequest
    simp [h1, h2, h3, h4, taut]
  · intro prov d hid
    rw [handleJsonRpcRequest_id]
    simp [requestOfData, hid]

/-- C10 witness: a request object with no `id` member at all passes the
guard and is answered with an undefined id. -/
theorem c10_shape_guard_id_tautology_witness :
    isJsonRpcRequest (JData.obj [("jsonrpc", .str "2.0"), ("method", .str "eth_chainId")])
        = true ∧
    (handleJsonRpcRequest none (requestOfData
        (JData.obj [("jsonrpc", .str "2.0"), ("method", .str "eth_chainId")]))).1.id
      = .undefined :=
  ⟨c10_shape_guard_id_tautology.2.1 _ rfl rfl rfl rfl,
   c10_shape_guard_id_tautology.2.2 none _ rfl⟩

/-- C7 counterexample: the claim states the serializer returns a string
for every input value; but `JSON.stringify(undefined, replacer)` is
`undefined`, which `safeStringify` returns as-is (the `catch` does not
fire), so the `undefined` input yields no string. -/
theorem c7_undefined_root_counterexample : safeStringify [] .undefined = none := rfl

/-- C7 amended: for every input other than `undefined` (with references
into the heap) the serializer totally returns a string; a contained
big-integer value serializes to its quoted decimal string; an error
object serializes as its name/message/stack fields; a self-referencing
object serializes with the "[Circular]" sentinel at the self-reference
(the walk terminates); and the catch-branch fallback has the documented
`Failed to stringify data` shape. -/
theorem c7_serializer_amended :
    (∀ (h : List HObj) (v : JSVal), v ≠ .undefined → (∀ a, v = .ref a → a < h.length) →
      (safeStringify h v).isSome = true) ∧
    (∀ (n : Int) (key : String),
      safeStringify [.obj [(key, .bigint n)]] (.ref 0)
        = some ("\x7b" ++ jsonQuote key ++ ":" ++ jsonQuote (toString n) ++ "\x7d")) ∧
    safeStringify [.errObj "TypeError" "boom" "trace"] (.ref 0)
      = some "\x7b\"name\":\"TypeError\",\"message\":\"boom\",\"stack\":\"trace\"\x7d" ∧
    safeStringify [.obj [("self", .ref 0)]] (.ref 0)
      = some "\x7b\"self\":\"[Circular]\"\x7d" ∧
    (∀ msg, stringifyFallback msg
        = "\x7b\"error\":\"Failed to stringify data\",\"message\":" ++
            jsonQuote msg ++ "\x7d") := by
  refine ⟨?_, fun n key => rfl, rfl, rfl, fun msg => rfl⟩
  intro h v hv hr
  unfold safeStringify
  obtain ⟨k, hk⟩ : ∃ k, serFuel h = k + 1 :=
    ⟨31 + 16 * h.foldl (fun acc o => acc + 1 + hObjSize o) 0, by unfold serFuel; omega⟩
  rw [hk]
  cases v with
  | undefined => exact absurd rfl hv
  | null => rfl
  | bool b => rfl
  | num n => rfl
  | str t => rfl
  | bigint n => rfl
  | ref a =>
    have ha : a < h.length := hr a rfl
    obtain ⟨o, ho⟩ : ∃ o, h[a]? = some o := by
      rw [List.getElem?_eq_getElem ha]; exact ⟨_, rfl⟩
    rw [serRun_val_unfold]
    cases o with
    | obj fs => simp [replacer, ho]
    | arr es => simp [replacer, ho]
    | errObj en em est => simp [replacer, ho]

/-- C7 amended witness: the totality conjunct applied to the `null`
input. -/
theorem c7_serializer_amended_witness : (safeStringify [] JSVal.null).isSome = true :=
  c7_serializer_amended.1 [] .null (by simp) (by simp)

/-- C6 witness: the response-shape theorem applied to a concrete
provider and request. -/
theorem c6_response_id_and_exactly_one_witness :
    (handleJsonRpcRequest (some provOkEmpty) ⟨.num 7, "eth_chainId", .undefined⟩).1.id = .num 7 ∧
    (handleJsonRpcRequest (some provOkEmpty) ⟨.num 7, "eth_chainId", .undefined⟩).1.result.isSome
      = !((handleJsonRpcRequest (some provOkEmpty)
            ⟨.num 7, "eth_chainId", .undefined⟩).1.error.isSome) :=
  c6_response_id_and_exactly_one (some provOkEmpty) ⟨.num 7, "eth_chainId", .undefined⟩

end SwapSdk

